import Mathlib

/-!
Verification development for the fawkes concurrency/notification core.

Part 1 embeds `InterruptibleBarrier` (src/libs/core/threading/interruptible_barrier.cpp).
The barrier's mutable state is a record; every critical section of the C++ code
(all of which run under the barrier's single mutex) becomes one atomic state
transformation.  `wait()` is decomposed into the entry critical section
(lines 233-259 of the source), the condition-wait loop guard (line 266) and the
exit section after the loop (lines 273-312); a multi-party round is the
mutex-serialized interleaving of those sections.

Part 2 embeds the blackboard interface-observer registration (header
src/libs/blackboard/interface_observer.h) together with the glob matching and
creation-event fan-out, and Part 3 the on-message wake adapter
(src/libs/blackboard/utils/on_message_waker.h); the corresponding .cpp bodies
are not among the sources and are modelled from the specification where noted.
-/

namespace Fawkes

/-- Threads are identified abstractly; `Thread::current_thread()` of the caller
becomes an explicit `ThreadId` argument. -/
abbrev ThreadId := Nat

/-- State of an `InterruptibleBarrier`:
`count` is `_count`, `threadsLeft` is `data_->threads_left`,
`passedThreads` the contents of the `passed_threads_` thread list,
`interrupted`/`timeout` the `interrupted_`/`timeout_` flags,
`numThreadsInWait` is `num_threads_in_wait_function_` and
`waitAtBarrier` is `wait_at_barrier_`. -/
structure BarrierState where
  count : Nat
  threadsLeft : Nat
  passedThreads : List ThreadId
  interrupted : Bool
  timeout : Bool
  numThreadsInWait : Nat
  waitAtBarrier : Bool
  deriving Repr, DecidableEq

namespace InterruptibleBarrier

/-- Constructor `InterruptibleBarrier::InterruptibleBarrier(unsigned int count)`
(interruptible_barrier.cpp lines 84-97): a count of zero throws
"Barrier count must be at least 1", otherwise `threads_left` starts at 0,
the passed list empty, both flags cleared and the in-wait counter zero.
(`wait_at_barrier_` is first assigned by the first `wait()` of a round;
it is modelled as initially false.) -/
def make (count : Nat) : Except String BarrierState :=
  if count = 0 then
    Except.error "Barrier count must be at least 1"
  else
    Except.ok
      { count := count
        threadsLeft := 0
        passedThreads := []
        interrupted := false
        timeout := false
        numThreadsInWait := 0
        waitAtBarrier := false }

/-- `InterruptibleBarrier::passed_threads()` (lines 176-180): returns the list
of threads that passed the barrier. -/
def passed_threads (s : BarrierState) : List ThreadId :=
  s.passedThreads

/-- `InterruptibleBarrier::interrupt()` (lines 188-197): sets `interrupted_`
and wakes all waiters (the wakeup itself has no state effect; waiters react
through the loop guard below). -/
def interrupt (s : BarrierState) : BarrierState :=
  { s with interrupted := true }

/-- Modelled from the spec: `InterruptibleBarrier::reset()` (lines 204-215)
clears `interrupted_` and `timeout_` and restores `threads_left` to `_count`
directly from the source; the final statement `passed_threads_.clear()`
resolves through `RefPtr`, whose definition (core/utils/refptr.h) is not among
the sources, so its effect is taken from the spec: reset "clears the
passed-parties list".  `num_threads_in_wait_function_` is not touched. -/
def reset (s : BarrierState) : BarrierState :=
  { s with
    interrupted := false
    timeout := false
    threadsLeft := s.count
    passedThreads := [] }

/-- `InterruptibleBarrier::no_threads_in_wait()` (lines 320-330): true iff
`num_threads_in_wait_function_` is zero. -/
def no_threads_in_wait (s : BarrierState) : Bool :=
  s.numThreadsInWait == 0

/-- Outcome of the entry critical section of `wait()`:
either the call returns immediately with a value (line 248 `return true;`),
or the caller registered for the round; `waker` records whether after its
decrement `threads_left` hit zero (line 264), i.e. whether this caller is the
one responsible for releasing the others. -/
inductive EntryOutcome where
  | ret (v : Bool)
  | registered (waker : Bool)
  deriving Repr, DecidableEq

/-- Lines 252-264 of `wait()`: the caller decrements `threads_left`, appends
itself (`Thread::current_thread()`, here the explicit `t`) to the passed list,
and computes whether it is the waker. -/
def waitRegister (s : BarrierState) (t : ThreadId) : BarrierState × EntryOutcome :=
  let s1 :=
    { s with
      threadsLeft := s.threadsLeft - 1
      passedThreads := s.passedThreads ++ [t] }
  (s1, EntryOutcome.registered (s1.threadsLeft == 0))

/-- Entry critical section of `wait()` (lines 233-259): increment the in-wait
counter; if `threads_left == 0` this caller is first of a new round and clears
`timeout_`, `interrupted_` and `wait_at_barrier_`, restores `threads_left` to
`_count` and empties the passed list before registering; otherwise, if
`interrupted_ || timeout_`, the call decrements the counter back and returns
`true` immediately (lines 243-249); otherwise it registers. -/
def waitEnter (s : BarrierState) (t : ThreadId) : BarrierState × EntryOutcome :=
  let s1 := { s with numThreadsInWait := s.numThreadsInWait + 1 }
  if s1.threadsLeft = 0 then
    let s2 :=
      { s1 with
        timeout := false
        interrupted := false
        waitAtBarrier := false
        threadsLeft := s1.count
        passedThreads := [] }
    waitRegister s2 t
  else if s1.interrupted || s1.timeout then
    ({ s1 with numThreadsInWait := s1.numThreadsInWait - 1 }, EntryOutcome.ret true)
  else
    waitRegister s1 t

/-- The condition-wait loop guard of `wait()` (line 266):
`threads_left && !interrupted_ && !timeout_ && !local_timeout`.
A registered caller stays blocked exactly while this is true. -/
def waitLoopGuard (s : BarrierState) (localTimeout : Bool) : Bool :=
  (!(s.threadsLeft == 0)) && !s.interrupted && !s.timeout && !localTimeout

/-- Result of a terminated `wait()` call: a returned boolean, or the
`InterruptedException` of line 281, which reports `_count - threads_left`
of `_count` threads as having reached the barrier. -/
inductive WaitResult where
  | ok (v : Bool)
  | interruptedExc (reached : Nat) (total : Nat)
  deriving Repr, DecidableEq

/-- Exit section of `wait()` after the loop (lines 273-312): if this caller's
`reltimed_wait` reported a timeout it sets `timeout_`; if `interrupted_` is
set the call throws `InterruptedException` reporting `_count - threads_left`
of `_count` — note that on this path `num_threads_in_wait_function_` is *not*
decremented (the throw at line 281 precedes the decrement at line 308);
otherwise the waker sets `wait_at_barrier_`, the counter is decremented and
the call returns `!timeout_`. -/
def waitExit (s : BarrierState) (localTimeout waker : Bool) : BarrierState × WaitResult :=
  let s1 := if localTimeout then { s with timeout := true } else s
  if s1.interrupted then
    (s1, WaitResult.interruptedExc (s1.count - s1.threadsLeft) s1.count)
  else
    let s2 := if waker then { s1 with waitAtBarrier := true } else s1
    let s3 := { s2 with numThreadsInWait := s2.numThreadsInWait - 1 }
    (s3, WaitResult.ok !s3.timeout)

/-- Arrival phase of a round: the entry critical sections of the given callers,
serialized by the barrier's mutex in arrival order. -/
def runArrivals (s : BarrierState) : List ThreadId → BarrierState × List (ThreadId × EntryOutcome)
  | [] => (s, [])
  | t :: ts =>
    let p1 := waitEnter s t
    let p2 := runArrivals p1.1 ts
    (p2.1, (t, p1.2) :: p2.2)

/-- One caller's continuation after the arrival phase, when its own
`reltimed_wait` never reports a timeout: an early-returner already has its
value; a registered caller runs the exit section with `local_timeout = false`
and its recorded waker flag. -/
def exitOne (s : BarrierState) : ThreadId × EntryOutcome → BarrierState × (ThreadId × WaitResult)
  | (t, EntryOutcome.ret v) => (s, (t, WaitResult.ok v))
  | (t, EntryOutcome.registered w) =>
    let p := waitExit s false w
    (p.1, (t, p.2))

/-- Exit phase of a round without local timeouts, serialized by the mutex. -/
def runExits (s : BarrierState) : List (ThreadId × EntryOutcome) → BarrierState × List (ThreadId × WaitResult)
  | [] => (s, [])
  | e :: es =>
    let p1 := exitOne s e
    let p2 := runExits p1.1 es
    (p2.1, p1.2 :: p2.2)

/-- A complete round in which no timeout elapses and `interrupt()` is not
called: all arrivals, then all exits. -/
def runRound (s : BarrierState) (ts : List ThreadId) : BarrierState × List (ThreadId × WaitResult) :=
  let p := runArrivals s ts
  runExits p.1 p.2

/-- The entry outcomes produced by a run of registrations that starts with
`threads_left = L`: the i-th caller records the waker flag `L - (i+1) == 0`. -/
def entriesFrom (L : Nat) : List ThreadId → List (ThreadId × EntryOutcome)
  | [] => []
  | t :: ts => (t, EntryOutcome.registered (L - 1 == 0)) :: entriesFrom (L - 1) ts

/-- Copy "constructor" `InterruptibleBarrier(const InterruptibleBarrier&)`
(lines 127-130): unconditionally throws `Exception("Barriers cannot be copied")`
at runtime. -/
def copyConstruct (_b : BarrierState) : Except String BarrierState :=
  Except.error "Barriers cannot be copied"

/-- Assignment `InterruptibleBarrier::operator=(const InterruptibleBarrier&)`
(lines 147-151): unconditionally throws `Exception("Barriers cannot be
assigned")` at runtime. -/
def assign (_a _b : BarrierState) : Except String BarrierState :=
  Except.error "Barriers cannot be assigned"

end InterruptibleBarrier

/-! ### Part 2: interface observer registration, glob matching and
creation-event fan-out -/

/-- Fuel-indexed glob matcher.  A `*` in the pattern matches any character
sequence; every other pattern character matches only itself literally
(spec section 6: "pattern matching treats `*` as 'match any sequence' and is
otherwise literal").  Each step consumes one pattern or subject character, so
`p.length + s.length + 1` fuel always suffices. -/
def globMatchFuel : Nat → List Char → List Char → Bool
  | 0, _, _ => false
  | _ + 1, [], s => s.isEmpty
  | f + 1, '*' :: ps, [] => globMatchFuel f ps []
  | f + 1, '*' :: ps, c :: s =>
    globMatchFuel f ps (c :: s) || globMatchFuel f ('*' :: ps) s
  | _ + 1, _ :: _, [] => false
  | f + 1, p :: ps, c :: s => p == c && globMatchFuel f ps s

/-- Glob match on character lists, with sufficient fuel. -/
def globMatch (p s : List Char) : Bool :=
  globMatchFuel (p.length + s.length + 1) p s

/-- Glob match on strings. -/
def globMatchS (p s : String) : Bool :=
  globMatch p.toList s.toList

/-- An observer's observed-pattern map: each entry maps a type-name pattern to
the list of id-name patterns registered for it (the header's
`LockMap<std::string, std::list<std::string>>`). -/
abbrev ObservedInterfaceMap := List (String × List String)

/-- Modelled from the spec: the body of
`BlackBoardInterfaceObserver::bbio_add_observed_create` (its translation unit
interface_observer.cpp is not among the sources; only the header declaring it
is).  Registration "adds a pattern to the calling observer's set", a mapping
from a type-name glob to a list of id-name globs: the id pattern is appended
to the list stored under the type pattern, creating the entry if absent. -/
def bbio_add_observed_create : ObservedInterfaceMap → String → String → ObservedInterfaceMap
  | [], tp, ip => [(tp, [ip])]
  | (t, ids) :: rest, tp, ip =>
    if t = tp then (t, ids ++ [ip]) :: rest
    else (t, ids) :: bbio_add_observed_create rest tp ip

/-- Registration with only a type pattern: the header
(interface_observer.h line 48) declares the id pattern's default argument as
`"*"`. -/
def bbio_add_observed_create_typeOnly (m : ObservedInterfaceMap) (typePattern : String) :
    ObservedInterfaceMap :=
  bbio_add_observed_create m typePattern "*"

/-- Whether an observer's create-interest map matches a lifecycle event
`(ty, idStr)`: some registered (type-pattern, id-pattern) pair glob-matches
both components. -/
def observerMatchesCreate (m : ObservedInterfaceMap) (ty idStr : String) : Bool :=
  m.any fun p => globMatchS p.1 ty && p.2.any fun ip => globMatchS ip idStr

/-- Modelled from the spec: the creation-event fan-out of the blackboard
notifier (its translation unit is not among the sources).  For an event
`(ty, idStr)` the notifier iterates all registered observers and invokes each
observer's `bb_interface_created` callback once if any of its pattern pairs
matches — "once per matching observer (never more than once per observer per
event, even if multiple patterns match)".  The result is the list of callback
invocations as (observer identity, type, id) triples. -/
def notify_created : List (Nat × ObservedInterfaceMap) → String → String → List (Nat × String × String)
  | [], _, _ => []
  | ob :: rest, ty, idStr =>
    if observerMatchesCreate ob.2 ty idStr then
      (ob.1, ty, idStr) :: notify_created rest ty idStr
    else
      notify_created rest ty idStr

/-- Number of callback invocations a given observer receives in a fan-out. -/
def callbacksTo (calls : List (Nat × String × String)) (o : Nat) : Nat :=
  (calls.filter fun c => c.1 == o).length

/-! ### Part 3: managed thread wakeup and the on-message wake adapter -/

/-- Thread operating mode (thread.h lines 56-59): `OPMODE_CONTINUOUS` or
`OPMODE_WAITFORWAKEUP`. -/
inductive OpMode where
  | continuous
  | waitForWakeup
  deriving Repr, DecidableEq

/-- The slice of `Thread` state the wake adapter touches: the operating mode
`op_mode_`, the pending-wakeup count `pending_wakeups_` and the coalescing
switch `coalesce_wakeups_` (thread.h lines 172, 191, 193). -/
structure ThreadState where
  opMode : OpMode
  pendingWakeups : Nat
  coalesceWakeups : Bool
  deriving Repr, DecidableEq

/-- Modelled from the spec: `Thread::wakeup()` (its translation unit thread.cpp
is not among the sources; thread.h declares it).  A wakeup "increments the
pending-wakeup count (coalesced unless configured otherwise)": with coalescing
at most one wakeup stays pending, without it each call adds one. -/
def Thread.wakeup (t : ThreadState) : ThreadState :=
  if t.coalesceWakeups then { t with pendingWakeups := 1 }
  else { t with pendingWakeups := t.pendingWakeups + 1 }

/-- A `BlackBoardOnMessageWaker` (on_message_waker.h lines 35-46) binds one
interface instance (identified abstractly) to one thread. -/
structure OnMessageWaker where
  boundInterface : Nat
  thread : ThreadId
  deriving Repr, DecidableEq

/-- Modelled from the spec: the body of
`BlackBoardOnMessageWaker::bb_interface_message_received` (its translation
unit is not among the sources; the header declares it).  The callback body is
exactly "if the thread is in WaitForWakeup mode, call `wakeup()` on it".  The
returned boolean records whether `wakeup()` was invoked on the bound thread. -/
def bb_interface_message_received (t : ThreadState) : ThreadState × Bool :=
  if t.opMode = OpMode.waitForWakeup then (Thread.wakeup t, true) else (t, false)

/-- Modelled from the spec: message-notifier dispatch for a single registered
wake adapter — a notification "delivers to every listener bound to that exact
instance", so the adapter's callback runs iff the message arrived on its own
bound interface instance. -/
def notify_message (w : OnMessageWaker) (inst : Nat) (t : ThreadState) : ThreadState × Bool :=
  if w.boundInterface = inst then bb_interface_message_received t else (t, false)

/-! ### Helper lemmas about the barrier's wait sections -/

namespace InterruptibleBarrier

/-- A caller entering a round already in progress (flags clear, threads still
expected) registers: it decrements `threads_left`, appends itself and records
whether it is the waker. -/
theorem waitEnter_clean (s : BarrierState) (t : ThreadId)
    (h0 : s.threadsLeft ≠ 0) (hi : s.interrupted = false) (ht : s.timeout = false) :
    waitEnter s t =
      ({ s with
          threadsLeft := s.threadsLeft - 1
          passedThreads := s.passedThreads ++ [t]
          numThreadsInWait := s.numThreadsInWait + 1 },
       EntryOutcome.registered (s.threadsLeft - 1 == 0)) := by
  simp [waitEnter, waitRegister, h0, hi, ht]

/-- The first caller of a fresh round clears the flags, restores
`threads_left` to `_count` and empties the passed list before registering. -/
theorem waitEnter_first (s : BarrierState) (t : ThreadId) (h : s.threadsLeft = 0) :
    waitEnter s t =
      ({ s with
          interrupted := false
          timeout := false
          waitAtBarrier := false
          threadsLeft := s.count - 1
          passedThreads := [t]
          numThreadsInWait := s.numThreadsInWait + 1 },
       EntryOutcome.registered (s.count - 1 == 0)) := by
  simp [waitEnter, waitRegister, h]

/-- A caller entering while a failure flag is set and the round is incomplete
returns `true` immediately and leaves the whole state unchanged. -/
theorem waitEnter_early (s : BarrierState) (t : ThreadId)
    (h0 : s.threadsLeft ≠ 0) (hf : s.interrupted = true ∨ s.timeout = true) :
    waitEnter s t = (s, EntryOutcome.ret true) := by
  rcases s with ⟨c, tl, p, i, tm, n, w⟩
  simp only [ne_eq] at h0 hf
  rcases hf with hf | hf <;> subst hf <;> simp [waitEnter, h0]

/-- The exit section of a caller that observed no interrupt: it possibly sets
`wait_at_barrier_`, decrements the in-wait counter and returns `!timeout_`. -/
theorem waitExit_noInt (s : BarrierState) (w : Bool) (hi : s.interrupted = false) :
    waitExit s false w =
      ({ s with
          waitAtBarrier := s.waitAtBarrier || w
          numThreadsInWait := s.numThreadsInWait - 1 },
       WaitResult.ok (!s.timeout)) := by
  cases w <;> simp [waitExit, hi]

/-- The exit section of a caller that observed the interrupt flag: it throws
`InterruptedException (count - threadsLeft) count` and leaves the state
unchanged — in particular the in-wait counter stays incremented. -/
theorem waitExit_int (s : BarrierState) (w : Bool) (hi : s.interrupted = true) :
    waitExit s false w =
      (s, WaitResult.interruptedExc (s.count - s.threadsLeft) s.count) := by
  simp [waitExit, hi]

/-- Serialized arrivals into a round in progress: with the flags clear and at
most `threads_left` callers, every caller registers; the state decrements
`threads_left` and extends the passed list by the callers in order. -/
theorem runArrivals_clean :
    ∀ (ts : List ThreadId) (s : BarrierState),
      s.interrupted = false → s.timeout = false → ts.length ≤ s.threadsLeft →
      runArrivals s ts =
        ({ s with
            threadsLeft := s.threadsLeft - ts.length
            passedThreads := s.passedThreads ++ ts
            numThreadsInWait := s.numThreadsInWait + ts.length },
         entriesFrom s.threadsLeft ts)
  | [], s, hi, ht, _ => by simp [runArrivals, entriesFrom]
  | t :: ts, s, hi, ht, hlen => by
    have h0 : s.threadsLeft ≠ 0 := by
      simp only [List.length_cons] at hlen; omega
    have hlen' : ts.length ≤ s.threadsLeft - 1 := by
      simp only [List.length_cons] at hlen; omega
    have ih := runArrivals_clean ts
      { s with
          threadsLeft := s.threadsLeft - 1
          passedThreads := s.passedThreads ++ [t]
          numThreadsInWait := s.numThreadsInWait + 1 }
      (by simp [hi]) (by simp [ht]) (by simpa using hlen')
    simp only [runArrivals, waitEnter_clean s t h0 hi ht, ih, entriesFrom]
    refine Prod.ext ?_ rfl
    simp only [BarrierState.mk.injEq, List.append_assoc, List.singleton_append,
      List.length_cons, true_and, and_true]
    omega

/-- Serialized arrivals on a fresh (or freshly completed) barrier: the first
caller opens the round; when at most `count` callers arrive, every one
registers and the passed list is exactly the callers in order. -/
theorem runArrivals_fresh (N : Nat) (s0 : BarrierState) (t : ThreadId) (ts : List ThreadId)
    (hmk : make N = Except.ok s0) (hlen : ts.length + 1 ≤ N) :
    runArrivals s0 (t :: ts) =
      ({ count := N
         threadsLeft := N - (ts.length + 1)
         passedThreads := t :: ts
         interrupted := false
         timeout := false
         numThreadsInWait := ts.length + 1
         waitAtBarrier := false },
       entriesFrom N (t :: ts)) := by
  have hN : N ≠ 0 := by
    intro h; subst h; simp [make] at hmk
  have hs0 :
      s0 = { count := N, threadsLeft := 0, passedThreads := [], interrupted := false,
             timeout := false, numThreadsInWait := 0, waitAtBarrier := false } := by
    simp [make, hN] at hmk; exact hmk.symm
  subst hs0
  have h1 := waitEnter_first
    { count := N, threadsLeft := 0, passedThreads := [], interrupted := false,
      timeout := false, numThreadsInWait := 0, waitAtBarrier := false } t rfl
  have h2 := runArrivals_clean ts
    { count := N, threadsLeft := N - 1, passedThreads := [t], interrupted := false,
      timeout := false, numThreadsInWait := 1, waitAtBarrier := false }
    rfl rfl (by simp; omega)
  simp only [runArrivals, h1, h2, entriesFrom]
  refine Prod.ext ?_ rfl
  simp only [BarrierState.mk.injEq, List.singleton_append, List.length_cons,
    true_and, and_true]
  omega

/-- Exit phase of a successfully completed round: with the flags clear, every
registered caller returns `true`; the exits only decrement the in-wait counter
(and possibly set `wait_at_barrier_`). -/
theorem runExits_ok :
    ∀ (ts : List ThreadId) (L : Nat) (s : BarrierState),
      s.interrupted = false → s.timeout = false →
      (runExits s (entriesFrom L ts)).2 = ts.map (fun t => (t, WaitResult.ok true)) ∧
      (runExits s (entriesFrom L ts)).1.count = s.count ∧
      (runExits s (entriesFrom L ts)).1.threadsLeft = s.threadsLeft ∧
      (runExits s (entriesFrom L ts)).1.passedThreads = s.passedThreads ∧
      (runExits s (entriesFrom L ts)).1.interrupted = false ∧
      (runExits s (entriesFrom L ts)).1.timeout = false ∧
      (runExits s (entriesFrom L ts)).1.numThreadsInWait = s.numThreadsInWait - ts.length
  | [], L, s, hi, ht => by simp [runExits, entriesFrom, hi, ht]
  | t :: ts, L, s, hi, ht => by
    have hstep := waitExit_noInt s (L - 1 == 0) hi
    have ih := runExits_ok ts (L - 1)
      { s with
          waitAtBarrier := s.waitAtBarrier || (L - 1 == 0)
          numThreadsInWait := s.numThreadsInWait - 1 }
      (by simp [hi]) (by simp [ht])
    simp only [runExits, entriesFrom, exitOne, hstep, ht] at *
    obtain ⟨i1, i2, i3, i4, i5, i6, i7⟩ := ih
    refine ⟨by simp [i1], by simpa using i2, by simpa using i3, by simpa using i4,
      by simpa using i5, by simpa using i6, ?_⟩
    simp only [List.length_cons]
    omega

/-- Exit phase after an interrupt: every registered caller throws the
interruption exception reporting `count - threadsLeft` of `count`, and the
state — including the in-wait counter — is left unchanged. -/
theorem runExits_interrupted :
    ∀ (ts : List ThreadId) (L : Nat) (s : BarrierState), s.interrupted = true →
      runExits s (entriesFrom L ts) =
        (s, ts.map fun t => (t, WaitResult.interruptedExc (s.count - s.threadsLeft) s.count))
  | [], L, s, hi => by simp [runExits, entriesFrom]
  | t :: ts, L, s, hi => by
    have hstep := waitExit_int s (L - 1 == 0) hi
    have ih := runExits_interrupted ts (L - 1) s hi
    simp only [runExits, entriesFrom, exitOne, hstep, ih, List.map_cons]

/-- Exit phase after the round timed out: every registered caller returns
`false`, and the failure flags persist. -/
theorem runExits_timedout :
    ∀ (ts : List ThreadId) (L : Nat) (s : BarrierState),
      s.interrupted = false → s.timeout = true →
      (runExits s (entriesFrom L ts)).2 = ts.map (fun t => (t, WaitResult.ok false)) ∧
      (runExits s (entriesFrom L ts)).1.interrupted = false ∧
      (runExits s (entriesFrom L ts)).1.timeout = true
  | [], L, s, hi, ht => by simp [runExits, entriesFrom, hi, ht]
  | t :: ts, L, s, hi, ht => by
    have hstep := waitExit_noInt s (L - 1 == 0) hi
    have ih := runExits_timedout ts (L - 1)
      { s with
          waitAtBarrier := s.waitAtBarrier || (L - 1 == 0)
          numThreadsInWait := s.numThreadsInWait - 1 }
      (by simp [hi]) (by simp [ht])
    simp only [runExits, entriesFrom, exitOne, hstep, ht] at *
    obtain ⟨i1, i2, i3⟩ := ih
    exact ⟨by simp [i1], by simpa using i2, by simpa using i3⟩

end InterruptibleBarrier

/-! ### Helper lemmas about glob matching and fan-out -/

/-- With enough fuel, the single pattern `*` matches every subject. -/
theorem globMatchFuel_star :
    ∀ (s : List Char) (f : Nat), s.length + 2 ≤ f → globMatchFuel f ['*'] s = true
  | [], f, hf => by
    obtain ⟨f2, rfl⟩ : ∃ f2, f = f2 + 2 := ⟨f - 2, by omega⟩
    simp [globMatchFuel]
  | c :: s, f, hf => by
    obtain ⟨f1, rfl⟩ : ∃ f1, f = f1 + 1 := ⟨f - 1, by omega⟩
    have ih := globMatchFuel_star s f1 (by simp at hf; omega)
    simp [globMatchFuel, ih]

/-- The id glob `"*"` matches any id string. -/
theorem globMatchS_star (s : String) : globMatchS "*" s = true := by
  have h : "*".toList = ['*'] := rfl
  simp only [globMatchS, globMatch, h]
  exact globMatchFuel_star s.toList _ (by simp; omega)

/-- Adding a (type, id) pattern pair leaves the pair retrievable: the map has
an entry for the type pattern whose id list contains the id pattern. -/
theorem bbio_add_observed_create_mem :
    ∀ (m : ObservedInterfaceMap) (tp ip : String),
      ∃ ids, (tp, ids) ∈ bbio_add_observed_create m tp ip ∧ ip ∈ ids
  | [], tp, ip => ⟨[ip], by simp [bbio_add_observed_create]⟩
  | (t, ids) :: rest, tp, ip => by
    by_cases h : t = tp
    · subst h
      exact ⟨ids ++ [ip], by simp [bbio_add_observed_create]⟩
    · obtain ⟨ids', hmem, hip⟩ := bbio_add_observed_create_mem rest tp ip
      exact ⟨ids', by simp [bbio_add_observed_create, h, hmem], hip⟩

/-- An observer whose identity is not registered receives no callback. -/
theorem callbacksTo_not_mem :
    ∀ (observers : List (Nat × ObservedInterfaceMap)) (ty idStr : String) (o : Nat),
      o ∉ observers.map Prod.fst →
      callbacksTo (notify_created observers ty idStr) o = 0
  | [], _, _, _, _ => rfl
  | ob :: rest, ty, idStr, o, h => by
    have ho : ob.1 ≠ o := by simp at h; exact fun he => h.1 he.symm
    have ih := callbacksTo_not_mem rest ty idStr o (by simp at h ⊢; exact h.2)
    simp only [notify_created]
    split
    · simpa [callbacksTo, ho] using ih
    · exact ih

/-- Per-observer delivery count of a creation-event fan-out: a registered
observer receives the callback exactly once when some of its pattern pairs
match the event, and not at all otherwise. -/
theorem callbacksTo_notify_created :
    ∀ (observers : List (Nat × ObservedInterfaceMap)) (ty idStr : String)
      (o : Nat) (pats : ObservedInterfaceMap),
      (observers.map Prod.fst).Nodup → (o, pats) ∈ observers →
      callbacksTo (notify_created observers ty idStr) o =
        if observerMatchesCreate pats ty idStr then 1 else 0
  | [], _, _, _, _, _, hmem => by simp at hmem
  | ob :: rest, ty, idStr, o, pats, hnd, hmem => by
    rw [List.map_cons] at hnd
    obtain ⟨hnd1, hnd2⟩ := List.nodup_cons.mp hnd
    rcases List.mem_cons.mp hmem with heq | hmem'
    · obtain rfl := heq.symm
      have h0 := callbacksTo_not_mem rest ty idStr o hnd1
      by_cases hm : observerMatchesCreate pats ty idStr <;>
        simp only [notify_created, hm, if_true, if_false, callbacksTo] at h0 ⊢ <;>
        simp [h0, hm]
    · have ho : o ∈ rest.map Prod.fst := List.mem_map.mpr ⟨(o, pats), hmem', rfl⟩
      have hne : (ob.1 == o) = false := by
        simp only [beq_eq_false_iff_ne, ne_eq]
        exact fun h => hnd1 (h ▸ ho)
      have ih := callbacksTo_notify_created rest ty idStr o pats hnd2 hmem'
      simp only [notify_created]
      split
      · simpa [callbacksTo, hne] using ih
      · exact ih

/-! ### Claim theorems -/

namespace InterruptibleBarrier

/-- C1: for every N ≥ 1, if exactly N parties call wait() on a fresh barrier
constructed with target count N and no timeout elapses and interrupt() is not
called, then every one of the N wait() calls returns true, and
passed_threads() after the round contains exactly those N callers (here even
in arrival order, hence in particular with set equality); moreover, after the
last arrival the wait loop's guard is false, so no caller stays blocked. -/
theorem c1_full_round_all_return_true_and_pass
    (N : Nat) (ts : List ThreadId) (s0 : BarrierState)
    (hN : 1 ≤ N) (hlen : ts.length = N) (hmk : make N = Except.ok s0) :
    (runRound s0 ts).2 = ts.map (fun u => (u, WaitResult.ok true)) ∧
    passed_threads (runRound s0 ts).1 = ts ∧
    (∀ u, u ∈ passed_threads (runRound s0 ts).1 ↔ u ∈ ts) ∧
    waitLoopGuard (runArrivals s0 ts).1 false = false := by
  cases ts with
  | nil => simp at hlen; omega
  | cons t ts' =>
    have hlen' : ts'.length + 1 = N := by simpa using hlen
    have harr := runArrivals_fresh N s0 t ts' hmk (by omega)
    have h0 : N - (ts'.length + 1) = 0 := by omega
    rw [h0] at harr
    have hrr : runRound s0 (t :: ts') =
        runExits
          { count := N, threadsLeft := 0, passedThreads := t :: ts',
            interrupted := false, timeout := false,
            numThreadsInWait := ts'.length + 1, waitAtBarrier := false }
          (entriesFrom N (t :: ts')) := by
      unfold runRound
      rw [harr]
    have hex := runExits_ok (t :: ts') N
      { count := N, threadsLeft := 0, passedThreads := t :: ts',
        interrupted := false, timeout := false,
        numThreadsInWait := ts'.length + 1, waitAtBarrier := false } rfl rfl
    obtain ⟨e1, -, -, e4, -, -, -⟩ := hex
    refine ⟨by rw [hrr]; exact e1, ?_, ?_, ?_⟩
    · rw [passed_threads, hrr, e4]
    · intro u
      rw [passed_threads, hrr, e4]
    · rw [harr]
      simp [waitLoopGuard]

/-- C1 witness: a fresh barrier with target 2 and two callers. -/
theorem c1_witness :
    (runRound ⟨2, 0, [], false, false, 0, false⟩ [4, 7]).2 =
        [4, 7].map (fun u => (u, WaitResult.ok true)) ∧
    passed_threads (runRound ⟨2, 0, [], false, false, 0, false⟩ [4, 7]).1 = [4, 7] :=
  ⟨(c1_full_round_all_return_true_and_pass 2 [4, 7] ⟨2, 0, [], false, false, 0, false⟩
      (by norm_num) rfl rfl).1,
   (c1_full_round_all_return_true_and_pass 2 [4, 7] ⟨2, 0, [], false, false, 0, false⟩
      (by norm_num) rfl rfl).2.1⟩

/-- C2 (code bug): the claim says every terminating wait() restores the
in-wait counter; but the interrupted exit throws at line 281 *before* the
decrement at line 308.  Concretely: on a fresh barrier with count 2, one
caller registers, interrupt() fires, the blocked caller's loop guard drops and
its exit throws InterruptedException "1 of 2" — and afterwards the counter is
still 1 and no_threads_in_wait() is false although no thread is in wait()
any more (and reset() never clears the counter either). -/
theorem c2_interrupted_wait_leaks_inwait_counter :
    (waitEnter ⟨2, 0, [], false, false, 0, false⟩ 5).1.numThreadsInWait = 1 ∧
    waitLoopGuard (interrupt (waitEnter ⟨2, 0, [], false, false, 0, false⟩ 5).1) false
      = false ∧
    waitExit (interrupt (waitEnter ⟨2, 0, [], false, false, 0, false⟩ 5).1) false false
      = (interrupt (waitEnter ⟨2, 0, [], false, false, 0, false⟩ 5).1,
         WaitResult.interruptedExc 1 2) ∧
    (waitExit (interrupt (waitEnter ⟨2, 0, [], false, false, 0, false⟩ 5).1)
        false false).1.numThreadsInWait = 1 ∧
    no_threads_in_wait
      (waitExit (interrupt (waitEnter ⟨2, 0, [], false, false, 0, false⟩ 5).1)
        false false).1 = false ∧
    no_threads_in_wait
      (reset (waitExit (interrupt (waitEnter ⟨2, 0, [], false, false, 0, false⟩ 5).1)
        false false).1) = false := by
  decide

/-- C3: reset() clears the interrupted and timed-out flags, restores the
remaining-count to the target party count and clears the passed-parties list,
so that passed_threads() afterwards is empty and a new full round of wait()
calls completes normally (all callers return true and pass). -/
theorem c3_reset_restores_fresh_round_state
    (s : BarrierState) (ts : List ThreadId)
    (_hc : 1 ≤ s.count) (hlen : ts.length = s.count) :
    reset s = { s with interrupted := false, timeout := false,
                       threadsLeft := s.count, passedThreads := [] } ∧
    passed_threads (reset s) = [] ∧
    (runRound (reset s) ts).2 = ts.map (fun u => (u, WaitResult.ok true)) ∧
    passed_threads (runRound (reset s) ts).1 = ts := by
  have harr := runArrivals_clean ts (reset s) rfl rfl
    (by simp [reset]; omega)
  have hrr : runRound (reset s) ts =
      runExits
        { reset s with
            threadsLeft := (reset s).threadsLeft - ts.length
            passedThreads := (reset s).passedThreads ++ ts
            numThreadsInWait := (reset s).numThreadsInWait + ts.length }
        (entriesFrom (reset s).threadsLeft ts) := by
    unfold runRound
    rw [harr]
  have hex := runExits_ok ts ((reset s).threadsLeft)
    { reset s with
        threadsLeft := (reset s).threadsLeft - ts.length
        passedThreads := (reset s).passedThreads ++ ts
        numThreadsInWait := (reset s).numThreadsInWait + ts.length } rfl rfl
  obtain ⟨e1, -, -, e4, -, -, -⟩ := hex
  refine ⟨rfl, rfl, by rw [hrr]; exact e1, ?_⟩
  rw [passed_threads, hrr, e4]
  simp [reset]

/-- C3 witness: resetting a barrier left dirty by a failed round (both flags
set, a stale passed entry, a leaked in-wait count), then running a full fresh
round of 2 callers. -/
theorem c3_witness :
    reset ⟨2, 1, [9], true, true, 3, true⟩ =
      { count := 2, threadsLeft := 2, passedThreads := [], interrupted := false,
        timeout := false, numThreadsInWait := 3, waitAtBarrier := true } ∧
    passed_threads (reset ⟨2, 1, [9], true, true, 3, true⟩) = [] ∧
    (runRound (reset ⟨2, 1, [9], true, true, 3, true⟩) [4, 7]).2 =
      [4, 7].map (fun u => (u, WaitResult.ok true)) ∧
    passed_threads (runRound (reset ⟨2, 1, [9], true, true, 3, true⟩) [4, 7]).1 = [4, 7] :=
  c3_reset_restores_fresh_round_state ⟨2, 1, [9], true, true, 3, true⟩ [4, 7]
    (by norm_num) rfl

/-- C4: a wait() call made while the barrier is in the Interrupted or TimedOut
state of an incomplete, un-reset round returns immediately without
re-registering — the state (remaining-count, passed list, in-wait counter) is
exactly unchanged — and any further sequence of callers is rejected the same
way, so the barrier admits no new round until reset(). -/
theorem c4_failed_round_rejects_until_reset
    (s : BarrierState) (t : ThreadId) (ts : List ThreadId)
    (h0 : s.threadsLeft ≠ 0) (hf : s.interrupted = true ∨ s.timeout = true) :
    waitEnter s t = (s, EntryOutcome.ret true) ∧
    (waitEnter s t).1.threadsLeft = s.threadsLeft ∧
    (waitEnter s t).1.passedThreads = s.passedThreads ∧
    runArrivals s ts = (s, ts.map fun u => (u, EntryOutcome.ret true)) := by
  have h := waitEnter_early s t h0 hf
  have harr : ∀ us : List ThreadId,
      runArrivals s us = (s, us.map fun u => (u, EntryOutcome.ret true)) := by
    intro us
    induction us with
    | nil => simp [runArrivals]
    | cons u us ih => simp [runArrivals, waitEnter_early s u h0 hf, ih]
  exact ⟨h, by rw [h], by rw [h], harr ts⟩

/-- C4 witness: an interrupted barrier with count 3 and one remaining party
rejects a late caller and a subsequent pair of callers without state change. -/
theorem c4_witness :
    waitEnter ⟨3, 1, [7, 8], true, false, 0, false⟩ 9 =
      (⟨3, 1, [7, 8], true, false, 0, false⟩, EntryOutcome.ret true) ∧
    (waitEnter ⟨3, 1, [7, 8], true, false, 0, false⟩ 9).1.threadsLeft = 1 ∧
    (waitEnter ⟨3, 1, [7, 8], true, false, 0, false⟩ 9).1.passedThreads = [7, 8] ∧
    runArrivals ⟨3, 1, [7, 8], true, false, 0, false⟩ [9, 11] =
      (⟨3, 1, [7, 8], true, false, 0, false⟩,
       [9, 11].map fun u => (u, EntryOutcome.ret true)) := by
  have h := c4_failed_round_rejects_until_reset
    ⟨3, 1, [7, 8], true, false, 0, false⟩ 9 [9, 11] (by norm_num) (Or.inl rfl)
  exact ⟨h.1, h.2.1, h.2.2.1, h.2.2.2⟩

/-- C10: a wait() call made while the interrupted or timed-out flag is set
from an incomplete, un-reset round returns true — the same `.ok true` as a
normally completed round — without blocking (it never reaches the wait loop),
without decrementing the remaining-count, and without raising the
interruption condition, so a late arriver cannot tell a failed round from a
successful one by the return value alone. -/
theorem c10_late_wait_true_without_registering
    (s : BarrierState) (t : ThreadId)
    (h0 : s.threadsLeft ≠ 0) (hf : s.interrupted = true ∨ s.timeout = true) :
    (waitEnter s t).2 = EntryOutcome.ret true ∧
    (waitEnter s t).1 = s ∧
    exitOne (waitEnter s t).1 (t, (waitEnter s t).2) = (s, (t, WaitResult.ok true)) := by
  have h := waitEnter_early s t h0 hf
  rw [h]
  exact ⟨rfl, rfl, rfl⟩

/-- C10 witness: a late caller on a timed-out barrier with one remaining
party gets `.ok true`, exactly like a caller of a successful round. -/
theorem c10_witness :
    (waitEnter ⟨2, 1, [4], false, true, 0, false⟩ 6).2 = EntryOutcome.ret true ∧
    (waitEnter ⟨2, 1, [4], false, true, 0, false⟩ 6).1 =
      ⟨2, 1, [4], false, true, 0, false⟩ ∧
    exitOne (waitEnter ⟨2, 1, [4], false, true, 0, false⟩ 6).1
        (6, (waitEnter ⟨2, 1, [4], false, true, 0, false⟩ 6).2) =
      (⟨2, 1, [4], false, true, 0, false⟩, (6, WaitResult.ok true)) :=
  c10_late_wait_true_without_registering ⟨2, 1, [4], false, true, 0, false⟩ 6
    (by norm_num) (Or.inr rfl)

/-- The return value of the exit section of a caller that observes no
interrupt: `true` unless its own relative timeout elapsed or the round's
timed-out flag is set. -/
theorem waitExit_result (s : BarrierState) (lt w : Bool) (hi : s.interrupted = false) :
    (waitExit s lt w).2 = WaitResult.ok (!(lt || s.timeout)) := by
  cases lt <;> cases w <;> simp [waitExit, hi]

/-- C5: if interrupt() is called while K = |t :: ts| of N parties have
arrived on a fresh barrier (K < N, the others registered and blocked), then
every blocked caller's wait loop unblocks and its exit raises
InterruptedException reporting exactly K of N parties reached — K being the
target count minus the remaining-count at the time the interrupt is
observed; the barrier state (including the K-deep passed list) is unchanged
by the throwing exits. -/
theorem c5_interrupt_reports_reached_of_total
    (N : Nat) (t : ThreadId) (ts : List ThreadId) (s0 sA : BarrierState)
    (es : List (ThreadId × EntryOutcome))
    (hmk : make N = Except.ok s0) (hK : ts.length + 1 < N)
    (harr : runArrivals s0 (t :: ts) = (sA, es)) :
    waitLoopGuard (interrupt sA) false = false ∧
    (interrupt sA).count - (interrupt sA).threadsLeft = ts.length + 1 ∧
    runExits (interrupt sA) es =
      (interrupt sA,
       (t :: ts).map fun u => (u, WaitResult.interruptedExc (ts.length + 1) N)) := by
  have hfr := runArrivals_fresh N s0 t ts hmk (by omega)
  rw [harr] at hfr
  injection hfr with h1 h2
  subst h1
  subst h2
  have harith : N - (N - (ts.length + 1)) = ts.length + 1 := by omega
  refine ⟨by simp [waitLoopGuard, interrupt], by simpa [interrupt] using harith, ?_⟩
  have hrex := runExits_interrupted (t :: ts) N
    (interrupt ⟨N, N - (ts.length + 1), t :: ts, false, false, ts.length + 1, false⟩) rfl
  simpa [interrupt, harith] using hrex

/-- C5 witness: target count 3, parties 1 and 2 blocked in wait(), interrupt
fires: both raise the condition reporting 2 of 3 reached. -/
theorem c5_witness :
    waitLoopGuard (interrupt ⟨3, 1, [1, 2], false, false, 2, false⟩) false = false ∧
    (interrupt ⟨3, 1, [1, 2], false, false, 2, false⟩).count -
        (interrupt ⟨3, 1, [1, 2], false, false, 2, false⟩).threadsLeft = 2 ∧
    runExits (interrupt ⟨3, 1, [1, 2], false, false, 2, false⟩)
        [(1, EntryOutcome.registered false), (2, EntryOutcome.registered false)] =
      (interrupt ⟨3, 1, [1, 2], false, false, 2, false⟩,
       [1, 2].map fun u => (u, WaitResult.interruptedExc 2 3)) :=
  c5_interrupt_reports_reached_of_total 3 1 [2] ⟨3, 0, [], false, false, 0, false⟩
    ⟨3, 1, [1, 2], false, false, 2, false⟩
    [(1, EntryOutcome.registered false), (2, EntryOutcome.registered false)]
    rfl (by norm_num) rfl

/-- C6: a wait() that registers in a round returns `.ok true` if the round
completes normally and `.ok false` — a boolean return, not an exception — if
a timeout is observed; and in a round where K = |t :: ts| < N parties
registered and one party's own relative timeout elapses first, that party
sets the timed-out flag and returns false, the other registered parties'
wait loops unblock, and every one of them returns false as well. -/
theorem c6_timeout_returns_false_to_all_registered
    (N : Nat) (t : ThreadId) (ts : List ThreadId) (s0 sA : BarrierState)
    (es : List (ThreadId × EntryOutcome))
    (hmk : make N = Except.ok s0) (hK : ts.length + 1 < N)
    (harr : runArrivals s0 (t :: ts) = (sA, es)) :
    (∀ (s : BarrierState) (w : Bool), s.interrupted = false → s.timeout = false →
      (waitExit s false w).2 = WaitResult.ok true) ∧
    (∀ (s : BarrierState) (lt w : Bool), s.interrupted = false →
      (lt = true ∨ s.timeout = true) → (waitExit s lt w).2 = WaitResult.ok false) ∧
    (waitExit sA true false).2 = WaitResult.ok false ∧
    waitLoopGuard (waitExit sA true false).1 false = false ∧
    (runExits (waitExit sA true false).1 (entriesFrom (N - 1) ts)).2 =
      ts.map fun u => (u, WaitResult.ok false) := by
  have hfr := runArrivals_fresh N s0 t ts hmk (by omega)
  rw [harr] at hfr
  injection hfr with h1 h2
  subst h1
  subst h2
  have hgen1 : ∀ (s : BarrierState) (w : Bool), s.interrupted = false →
      s.timeout = false → (waitExit s false w).2 = WaitResult.ok true := by
    intro s w hi ht
    rw [waitExit_result s false w hi, ht]
    rfl
  have hgen2 : ∀ (s : BarrierState) (lt w : Bool), s.interrupted = false →
      (lt = true ∨ s.timeout = true) → (waitExit s lt w).2 = WaitResult.ok false := by
    intro s lt w hi hf
    rw [waitExit_result s lt w hi]
    rcases hf with rfl | hf
    · rfl
    · rw [hf]
      cases lt <;> rfl
  have hstep : waitExit ⟨N, N - (ts.length + 1), t :: ts, false, false,
      ts.length + 1, false⟩ true false =
      (⟨N, N - (ts.length + 1), t :: ts, false, true, ts.length, false⟩,
       WaitResult.ok false) := rfl
  have hrex := runExits_timedout ts (N - 1)
    ⟨N, N - (ts.length + 1), t :: ts, false, true, ts.length, false⟩ rfl rfl
  refine ⟨hgen1, hgen2, ?_, ?_, ?_⟩
  · rw [hstep]
  · rw [hstep]
    simp [waitLoopGuard]
  · rw [hstep]
    exact hrex.1

/-- C6 witness: target count 3, parties 1 and 2 registered, party 1's own
relative timeout elapses: both registered parties return false. -/
theorem c6_witness :
    (waitExit ⟨3, 1, [1, 2], false, false, 2, false⟩ true false).2 =
      WaitResult.ok false ∧
    waitLoopGuard (waitExit ⟨3, 1, [1, 2], false, false, 2, false⟩ true false).1 false
      = false ∧
    (runExits (waitExit ⟨3, 1, [1, 2], false, false, 2, false⟩ true false).1
        (entriesFrom 2 [2])).2 = [2].map fun u => (u, WaitResult.ok false) := by
  have h := c6_timeout_returns_false_to_all_registered 3 1 [2]
    ⟨3, 0, [], false, false, 0, false⟩ ⟨3, 1, [1, 2], false, false, 2, false⟩
    [(1, EntryOutcome.registered false), (2, EntryOutcome.registered false)]
    rfl (by norm_num) rfl
  exact ⟨h.2.2.1, h.2.2.2.1, h.2.2.2.2⟩

/-- C7 counterexample: the claim says a barrier copy/assignment attempt is
never rejected by a runtime exception raised from the copy or assignment
operation — but both the copy constructor (line 129) and operator=
(line 150) do exactly that: they throw a fawkes Exception at runtime. -/
theorem c7_counterexample_copy_assign_throw :
    copyConstruct ⟨1, 0, [], false, false, 0, false⟩ =
      Except.error "Barriers cannot be copied" ∧
    assign ⟨1, 0, [], false, false, 0, false⟩ ⟨1, 0, [], false, false, 0, false⟩ =
      Except.error "Barriers cannot be assigned" :=
  ⟨rfl, rfl⟩

/-- C7 amended: duplicating a barrier never succeeds, but the rejection is a
runtime Exception thrown from the copy / assignment operation itself, for
every input (the Thread class, by contrast, declares its copy constructor and
assignment operator private and unimplemented, rejecting copies at compile
time, which the C++ type system keeps outside this embedding). -/
theorem c7_amended_duplication_never_succeeds (a b : BarrierState) :
    copyConstruct a = Except.error "Barriers cannot be copied" ∧
    assign a b = Except.error "Barriers cannot be assigned" :=
  ⟨rfl, rfl⟩

end InterruptibleBarrier

/-- C8: registering create-interest with only a type pattern uses the id glob
"*" (the header's default argument), which matches any id, so such an
observer matches every event whose type the type pattern glob-matches; and in
a creation-event fan-out over a registry of distinct observers, an observer
whose pattern set matches the event receives the interface_created callback
exactly once (even if several of its pattern pairs match), and an observer
with no matching pattern receives none. -/
theorem c8_create_observer_glob_matching :
    (∀ (m : ObservedInterfaceMap) (tp : String),
      bbio_add_observed_create_typeOnly m tp = bbio_add_observed_create m tp "*") ∧
    (∀ (m : ObservedInterfaceMap) (tp ty idStr : String),
      globMatchS tp ty = true →
      observerMatchesCreate (bbio_add_observed_create_typeOnly m tp) ty idStr = true) ∧
    (∀ (observers : List (Nat × ObservedInterfaceMap)) (ty idStr : String)
        (o : Nat) (pats : ObservedInterfaceMap),
      (observers.map Prod.fst).Nodup → (o, pats) ∈ observers →
      callbacksTo (notify_created observers ty idStr) o =
        if observerMatchesCreate pats ty idStr then 1 else 0) := by
  refine ⟨fun _ _ => rfl, ?_, callbacksTo_notify_created⟩
  intro m tp ty idStr h
  obtain ⟨ids, hmem, hip⟩ := bbio_add_observed_create_mem m tp "*"
  rw [bbio_add_observed_create_typeOnly, observerMatchesCreate, List.any_eq_true]
  refine ⟨(tp, ids), hmem, ?_⟩
  rw [Bool.and_eq_true]
  exact ⟨h, List.any_eq_true.mpr ⟨"*", hip, globMatchS_star idStr⟩⟩

/-- C8 witness: an observer registered (via the type-only default) for
("Laser*", "*") gets exactly one callback for notify_created("LaserInterface",
"front") and none for notify_created("CameraInterface", "front"). -/
theorem c8_witness :
    callbacksTo
      (notify_created [(0, bbio_add_observed_create_typeOnly [] "Laser*")]
        "LaserInterface" "front") 0 = 1 ∧
    callbacksTo
      (notify_created [(0, bbio_add_observed_create_typeOnly [] "Laser*")]
        "CameraInterface" "front") 0 = 0 := by
  have h1 := c8_create_observer_glob_matching.2.2
    [(0, bbio_add_observed_create_typeOnly [] "Laser*")] "LaserInterface" "front"
    0 (bbio_add_observed_create_typeOnly [] "Laser*") (by decide)
    (List.mem_singleton.mpr rfl)
  have h2 := c8_create_observer_glob_matching.2.2
    [(0, bbio_add_observed_create_typeOnly [] "Laser*")] "CameraInterface" "front"
    0 (bbio_add_observed_create_typeOnly [] "Laser*") (by decide)
    (List.mem_singleton.mpr rfl)
  rw [h1, h2]
  decide

/-- C9: the wake adapter's message callback invokes wakeup() on its bound
thread iff the thread is in WaitForWakeup mode, and only a message
notification on the adapter's own bound interface instance triggers it: on
any other instance the callback does not run, the thread is untouched and
never woken. -/
theorem c9_wake_adapter_wakes_iff_bound_and_waiting
    (w : OnMessageWaker) (inst : Nat) (t : ThreadState) :
    ((notify_message w inst t).2 = true ↔
      inst = w.boundInterface ∧ t.opMode = OpMode.waitForWakeup) ∧
    ((notify_message w inst t).2 = true →
      (notify_message w inst t).1 = Thread.wakeup t) ∧
    ((notify_message w inst t).2 = false → (notify_message w inst t).1 = t) ∧
    (inst ≠ w.boundInterface → notify_message w inst t = (t, false)) := by
  have h1c : inst = w.boundInterface ↔ w.boundInterface = inst := eq_comm
  by_cases h1 : w.boundInterface = inst <;>
    by_cases h2 : t.opMode = OpMode.waitForWakeup <;>
    simp [notify_message, bb_interface_message_received, h1, h2, h1c]

/-- C9 witness: an adapter bound to interface 5 and a WaitForWakeup thread —
notify_message on instance 5 wakes the thread (one pending wakeup), on
instance 6 it does not run and leaves the thread untouched. -/
theorem c9_witness :
    (notify_message ⟨5, 1⟩ 5 ⟨OpMode.waitForWakeup, 0, true⟩).2 = true ∧
    (notify_message ⟨5, 1⟩ 5 ⟨OpMode.waitForWakeup, 0, true⟩).1 =
      Thread.wakeup ⟨OpMode.waitForWakeup, 0, true⟩ ∧
    notify_message ⟨5, 1⟩ 6 ⟨OpMode.waitForWakeup, 0, true⟩ =
      (⟨OpMode.waitForWakeup, 0, true⟩, false) := by
  have ha := c9_wake_adapter_wakes_iff_bound_and_waiting ⟨5, 1⟩ 5
    ⟨OpMode.waitForWakeup, 0, true⟩
  have hb := c9_wake_adapter_wakes_iff_bound_and_waiting ⟨5, 1⟩ 6
    ⟨OpMode.waitForWakeup, 0, true⟩
  have h2 : (notify_message ⟨5, 1⟩ 5 ⟨OpMode.waitForWakeup, 0, true⟩).2 = true :=
    ha.1.mpr ⟨rfl, rfl⟩
  exact ⟨h2, ha.2.1 h2, hb.2.2.2 (by decide)⟩

end Fawkes
